import Mathlib

/-!
Verification of the TurboDocx Python SDK core: the template-variable
request assembler and validator (`modules/template.py`) and the binary
content-type sniffer (`http.py`).

Python dicts are modelled as insertion-ordered association lists over a
JSON value type `JVal`; a possibly-absent dict key is an `Option` field;
a raised exception is the `Except.error` branch of an `Except PyExc`
result.  Byte buffers are lists of naturals below 256; Python strings
are lists of Unicode code points.
-/

namespace TurboDocx

/-- JSON-compatible Python value: `None`, bool, number, string, list, dict. -/
inductive JVal where
  | null : JVal
  | bool : Bool → JVal
  | num : Int → JVal
  | str : String → JVal
  | arr : List JVal → JVal
  | obj : List (String × JVal) → JVal

/-- Exception classes raised by the modelled code paths.  `valueError` is
Python's builtin `ValueError` (raised by `TurboTemplate.generate` and the
constructor helpers); `validationError` is the SDK's `ValidationError`
subclass of `TurboDocxError` defined in `http.py` (raised only by the HTTP
layer on status 400). -/
inductive PyExc where
  | valueError : String → PyExc
  | validationError : String → PyExc
deriving DecidableEq

/-- A `TemplateVariable` input dict.  `none` means the key is absent;
`some JVal.null` models a key present with an explicit `None`.  The
`placeholder`, `name` and `mimeType` keys are typed `str` in the source's
`TypedDict`, so they are `Option String`. -/
structure TemplateVariable where
  placeholder : Option String := none
  name : Option String := none
  mimeType : Option String := none
  value : Option JVal := none
  text : Option JVal := none
  usesAdvancedTemplatingEngine : Option JVal := none
  nestedInAdvancedTemplatingEngine : Option JVal := none
  allowRichTextInjection : Option JVal := none
  description : Option JVal := none
  defaultValue : Option JVal := none
  subvariables : Option JVal := none

/-- A `GenerateTemplateRequest` input dict.  `templateId` and the
variable list (the source's `variables` key, a reserved word in Lean,
hence `variablesList` here) are accessed with `request[...]` (required);
the envelope options are accessed with `in` tests, hence `Option`. -/
structure GenerateRequest where
  templateId : String
  variablesList : List TemplateVariable
  name : Option JVal := none
  description : Option JVal := none
  replaceFonts : Option JVal := none
  defaultFont : Option JVal := none
  outputFormat : Option JVal := none
  metadata : Option JVal := none

/-- Python truthiness of an optional string: `None` and `""` are falsy. -/
def truthyStr : Option String → Bool
  | none => false
  | some s => s ≠ ""

/-- How Python renders an optional string inside an f-string: `None`
prints as `None`, a string prints as itself. -/
def pyShow : Option String → String
  | none => "None"
  | some s => s

/-- An optional string stored into a dict: `None` or the string itself. -/
def pyOptStr : Option String → JVal
  | none => JVal.null
  | some s => JVal.str s

/-- Conditional dict entry: `if k in v: out[k] = v[k]`. -/
def optEntry (k : String) : Option JVal → List (String × JVal)
  | none => []
  | some j => [(k, j)]

/-- First-match lookup in an insertion-ordered dict. -/
def lookupKey (k : String) : List (String × JVal) → Option JVal
  | [] => none
  | (k2, j) :: rest => if k2 = k then some j else lookupKey k rest

/-- Whether a dict has a key. -/
def hasKey (k : String) (l : List (String × JVal)) : Bool :=
  (lookupKey k l).isSome

/-- The `ValueError` message of `TurboTemplate.generate` for a variable
whose `mimeType` is absent or empty; interpolates the already-copied
placeholder value as Python's f-string does. -/
def mimeErrMsg (p : Option String) : String :=
  "Variable \"" ++ pyShow p ++ "\" must have a \"mimeType\" property"

/-- `mimeType` passes `generate`'s check when the key is present and its
value is truthy (non-empty). -/
def goodMime : Option String → Bool
  | none => false
  | some m => m ≠ ""

/-- The per-variable body of the loop in `TurboTemplate.generate`
(template.py lines 151-187): build the outgoing wire record for one
variable, raising `ValueError` when `mimeType` is absent or empty.
Entries are listed in the source's insertion order. -/
def build_variable (v : TemplateVariable) : Except PyExc (List (String × JVal)) :=
  match v.mimeType with
  | none => .error (.valueError (mimeErrMsg v.placeholder))
  | some m =>
    if m = "" then .error (.valueError (mimeErrMsg v.placeholder))
    else
      .ok ([("placeholder", pyOptStr v.placeholder), ("name", pyOptStr v.name),
            ("mimeType", JVal.str m)]
        ++ optEntry "value" v.value
        ++ optEntry "text" v.text
        ++ optEntry "usesAdvancedTemplatingEngine" v.usesAdvancedTemplatingEngine
        ++ optEntry "nestedInAdvancedTemplatingEngine" v.nestedInAdvancedTemplatingEngine
        ++ optEntry "allowRichTextInjection" v.allowRichTextInjection
        ++ optEntry "description" v.description
        ++ optEntry "defaultValue" v.defaultValue
        ++ optEntry "subvariables" v.subvariables)

/-- The variables loop of `TurboTemplate.generate`: process variables in
order, stopping at the first raise. -/
def buildVariables : List TemplateVariable → Except PyExc (List (List (String × JVal)))
  | [] => .ok []
  | v :: rest =>
    match build_variable v with
    | .error e => .error e
    | .ok rec0 =>
      match buildVariables rest with
      | .error e => .error e
      | .ok recs => .ok (rec0 :: recs)

/-- The request-assembly portion of `TurboTemplate.generate` (template.py
lines 144-200): everything before `client.post`.  An `Except.error`
result means the exception was raised before any network call, with no
body emitted.  Note the source copies `name`, `description`,
`replaceFonts`, `defaultFont` and `metadata` when present and
deliberately skips `outputFormat`. -/
def generate_body (r : GenerateRequest) : Except PyExc (List (String × JVal)) :=
  match buildVariables r.variablesList with
  | .error e => .error e
  | .ok recs =>
    .ok ([("templateId", JVal.str r.templateId),
          ("variables", JVal.arr (recs.map JVal.obj))]
      ++ optEntry "name" r.name
      ++ optEntry "description" r.description
      ++ optEntry "replaceFonts" r.replaceFonts
      ++ optEntry "defaultFont" r.defaultFont
      ++ optEntry "metadata" r.metadata)

/-- The `variables` array of an assembled body. -/
def bodyVariables (body : List (String × JVal)) : List JVal :=
  match lookupKey "variables" body with
  | some (JVal.arr vs) => vs
  | _ => []

/-- Validation result `{isValid, errors, warnings}` (types/template.py). -/
structure VariableValidation where
  isValid : Bool
  errors : Option (List String)
  warnings : Option (List String)
deriving DecidableEq

/-- Error string for a variable missing placeholder or name. -/
def msgBoth : String :=
  "Variable must have both \"placeholder\" and \"name\" properties"

/-- Error string for an image variable whose value is not a string. -/
def msgImage : String :=
  "Image variables must have a string value (URL or base64)"

/-- Warning string for a complex value without an explicit mimeType. -/
def msgComplex : String :=
  "Complex objects should explicitly set mimeType to \"json\""

/-- Warning string for an array value whose mimeType is not json. -/
def msgArray : String :=
  "Array values should use mimeType: \"json\""

/-- Whether an optional value is a Python dict or list
(`isinstance(value, (dict, list)) and value is not None`). -/
def isDictOrList : Option JVal → Bool
  | some (JVal.obj _) => true
  | some (JVal.arr _) => true
  | _ => false

/-- Whether an optional value is a Python list (`isinstance(value, list)`). -/
def isListValue : Option JVal → Bool
  | some (JVal.arr _) => true
  | _ => false

/-- Whether an optional value is a Python string (`isinstance(value, str)`). -/
def isStringValue : Option JVal → Bool
  | some (JVal.str _) => true
  | _ => false

/-- The `errors` accumulator of `TurboTemplate.validate_variable`
(template.py lines 218-243), in source order: the placeholder/name check
and the image-value check. -/
def validationErrors (v : TemplateVariable) : List String :=
  (if ¬ truthyStr v.placeholder ∨ ¬ truthyStr v.name then [msgBoth] else [])
    ++ (if v.mimeType = some "image" ∧ isStringValue v.value = false
        then [msgImage] else [])

/-- The `warnings` accumulator of `TurboTemplate.validate_variable`, in
source order: the complex-object check and the array check. -/
def validationWarnings (v : TemplateVariable) : List String :=
  (if (v.mimeType = some "json" ∨ isDictOrList v.value = true)
      ∧ ¬ truthyStr v.mimeType
   then [msgComplex] else [])
    ++ (if isListValue v.value = true ∧ v.mimeType ≠ some "json"
        then [msgArray] else [])

/-- `TurboTemplate.validate_variable` (template.py lines 205-249):
`isValid` is `len(errors) == 0`; empty accumulators are returned as
`None`, never as empty-but-present lists. -/
def validate_variable (v : TemplateVariable) : VariableValidation :=
  let errs := validationErrors v
  let warns := validationWarnings v
  { isValid := errs.isEmpty
    errors := if errs.isEmpty then none else some errs
    warnings := if warns.isEmpty then none else some warns }

/-- `TurboTemplate.create_simple_variable` (template.py lines 251-281):
checks its required string arguments in source order, then returns the
four-field record. -/
def create_simple_variable (placeholder name : String) (value : JVal)
    (mime_type : String) : Except PyExc TemplateVariable :=
  if placeholder = "" then .error (.valueError "placeholder is required")
  else if name = "" then .error (.valueError "name is required")
  else if mime_type = "" then .error (.valueError "mime_type is required")
  else if mime_type ≠ "text" ∧ mime_type ≠ "html" then
    .error (.valueError "mime_type must be \x27text\x27 or \x27html\x27")
  else
    .ok { placeholder := some placeholder, name := some name,
          value := some value, mimeType := some mime_type }

/-- A UTF-8 continuation byte (`0x80..0xBF`). -/
def isCont (b : Nat) : Bool := 0x80 ≤ b && b ≤ 0xBF

/-- Python's `bytes.decode('utf-8', errors='ignore')` on a byte buffer,
returning the decoded code points.  Valid sequences decode normally
(overlong forms, surrogate range `U+D800..U+DFFF` and values above
`U+10FFFF` are invalid); each maximal invalid subpart is dropped and
decoding resumes at the next byte; a truncated sequence at the end of
the buffer is likewise dropped. -/
def decodeUtf8Ignore : List Nat → List Nat
  | [] => []
  | b :: rest =>
    if b < 0x80 then b :: decodeUtf8Ignore rest
    else if b < 0xC2 then decodeUtf8Ignore rest
    else if b ≤ 0xDF then
      match rest with
      | [] => []
      | c1 :: rest1 =>
        if isCont c1 then
          ((b - 0xC0) * 0x40 + (c1 - 0x80)) :: decodeUtf8Ignore rest1
        else decodeUtf8Ignore (c1 :: rest1)
    else if b ≤ 0xEF then
      let lo := if b = 0xE0 then 0xA0 else 0x80
      let hi := if b = 0xED then 0x9F else 0xBF
      match rest with
      | [] => []
      | c1 :: rest1 =>
        if lo ≤ c1 && c1 ≤ hi then
          match rest1 with
          | [] => []
          | c2 :: rest2 =>
            if isCont c2 then
              ((b - 0xE0) * 0x1000 + (c1 - 0x80) * 0x40 + (c2 - 0x80))
                :: decodeUtf8Ignore rest2
            else decodeUtf8Ignore (c2 :: rest2)
        else decodeUtf8Ignore (c1 :: rest1)
    else if b ≤ 0xF4 then
      let lo := if b = 0xF0 then 0x90 else 0x80
      let hi := if b = 0xF4 then 0x8F else 0xBF
      match rest with
      | [] => []
      | c1 :: rest1 =>
        if lo ≤ c1 && c1 ≤ hi then
          match rest1 with
          | [] => []
          | c2 :: rest2 =>
            if isCont c2 then
              match rest2 with
              | [] => []
              | c3 :: rest3 =>
                if isCont c3 then
                  ((b - 0xF0) * 0x40000 + (c1 - 0x80) * 0x1000
                    + (c2 - 0x80) * 0x40 + (c3 - 0x80))
                    :: decodeUtf8Ignore rest3
                else decodeUtf8Ignore (c3 :: rest3)
            else decodeUtf8Ignore (c2 :: rest2)
        else decodeUtf8Ignore (c1 :: rest1)
    else decodeUtf8Ignore rest

/-- Whether `pat` is an initial run of `l`. -/
def leadsWith : List Nat → List Nat → Bool
  | [], _ => true
  | _ :: _, [] => false
  | p :: ps, x :: xs => p == x && leadsWith ps xs

/-- Python's substring test `pat in s`: `pat` occurs contiguously in `l`. -/
def containsSeq (pat : List Nat) : List Nat → Bool
  | [] => leadsWith pat []
  | x :: xs => leadsWith pat (x :: xs) || containsSeq pat xs

/-- Code points of the literal `ppt/`. -/
def pptMarker : List Nat := [0x70, 0x70, 0x74, 0x2F]

/-- Code points of the literal `word/`. -/
def wordMarker : List Nat := [0x77, 0x6F, 0x72, 0x64, 0x2F]

/-- `detect_file_type` from `http.py` (lines 11-55): classify a byte
buffer by magic bytes into a `(mimetype, extension)` pair.  `%PDF` is
`[0x25, 0x50, 0x44, 0x46]` and `PK` is `[0x50, 0x4B]`. -/
def detect_file_type (fileBytes : List Nat) : String × String :=
  if fileBytes.length < 4 then ("application/octet-stream", "bin")
  else if fileBytes.take 4 = [0x25, 0x50, 0x44, 0x46] then
    ("application/pdf", "pdf")
  else if fileBytes.take 2 = [0x50, 0x4B] then
    let header := fileBytes.take (min fileBytes.length 2000)
    let headerStr := decodeUtf8Ignore header
    if containsSeq pptMarker headerStr then
      ("application/vnd.openxmlformats-officedocument.presentationml.presentation",
       "pptx")
    else if containsSeq wordMarker headerStr then
      ("application/vnd.openxmlformats-officedocument.wordprocessingml.document",
       "docx")
    else
      ("application/vnd.openxmlformats-officedocument.wordprocessingml.document",
       "docx")
  else ("application/octet-stream", "bin")

/-- The sniffing algorithm as the specification words it: priority order
with first match winning; inside a `PK` container, `ppt/` gives the
presentation type, else `word/` gives the word-processing type, else the
word-processing type is the default.  Stated over the same permissive
decoding. -/
def detect_file_type_spec (b : List Nat) : String × String :=
  if b.length < 4 then ("application/octet-stream", "bin")
  else if b.take 4 = [0x25, 0x50, 0x44, 0x46] then ("application/pdf", "pdf")
  else if b.take 2 = [0x50, 0x4B] then
    let inspected := decodeUtf8Ignore (b.take (min b.length 2000))
    if containsSeq pptMarker inspected then
      ("application/vnd.openxmlformats-officedocument.presentationml.presentation",
       "pptx")
    else
      ("application/vnd.openxmlformats-officedocument.wordprocessingml.document",
       "docx")
  else ("application/octet-stream", "bin")

/-- A validation result reports an error message when its `errors` field
is a present list containing that message. -/
def reportsError (r : VariableValidation) (msg : String) : Prop :=
  ∃ l, r.errors = some l ∧ msg ∈ l

/-- A validation result reports a warning message when its `warnings`
field is a present list containing that message. -/
def reportsWarning (r : VariableValidation) (msg : String) : Prop :=
  ∃ l, r.warnings = some l ∧ msg ∈ l

/-- A dict key `k` holds a non-empty string. -/
def nonEmptyStrEntry (rec0 : List (String × JVal)) (k : String) : Bool :=
  match lookupKey k rec0 with
  | some (JVal.str s) => s ≠ ""
  | _ => false

/-- An emitted variable record as claim C1 describes it: an object with
non-empty `placeholder` and `name` strings and an explicit `mimeType`. -/
def c1Record (j : JVal) : Bool :=
  match j with
  | JVal.obj rec0 =>
    nonEmptyStrEntry rec0 "placeholder" && nonEmptyStrEntry rec0 "name"
      && hasKey "mimeType" rec0
  | _ => false

/-- Claim C1 evaluated at one request: every record in the accepted
body's `variables` list satisfies `c1Record`. -/
def emittedVarsWellFormed (r : GenerateRequest) : Bool :=
  match generate_body r with
  | .error _ => true
  | .ok body => (bodyVariables body).all c1Record

/-- The amended C1 record shape: `placeholder` and `name` keys present
(with whatever value was copied) and a non-empty string `mimeType`. -/
def mimeOkRecord (j : JVal) : Bool :=
  match j with
  | JVal.obj rec0 =>
    hasKey "placeholder" rec0 && hasKey "name" rec0
      && (match lookupKey "mimeType" rec0 with
          | some (JVal.str m) => m ≠ ""
          | _ => false)
  | _ => false

/-- Claim C2 evaluated at one variable: `value` emitted iff supplied,
`text` emitted only when `value` absent and `text` supplied. -/
def valueTextPrecedence (v : TemplateVariable) : Bool :=
  match build_variable v with
  | .error _ => true
  | .ok rec0 =>
    (hasKey "value" rec0 == v.value.isSome)
      && (hasKey "text" rec0 == (v.value.isNone && v.text.isSome))

/-- Claim C3's failure class evaluated at one request: the assembler
failed with the SDK's `ValidationError` class. -/
def failsWithValidationError (r : GenerateRequest) : Bool :=
  match generate_body r with
  | .error (.validationError _) => true
  | _ => false

/-- Claim C5 evaluated at one variable: the both-properties error is
reported exactly when `placeholder` and `name` are each absent/empty. -/
def bothRuleHolds (v : TemplateVariable) : Bool :=
  (validationErrors v).contains msgBoth
    == (!truthyStr v.placeholder && !truthyStr v.name)

section Lemmas

lemma lookupKey_append (k : String) (l1 l2 : List (String × JVal)) :
    lookupKey k (l1 ++ l2) =
      match lookupKey k l1 with
      | some j => some j
      | none => lookupKey k l2 := by
  induction l1 with
  | nil => simp [lookupKey]
  | cons hd tl ih =>
    obtain ⟨k2, j⟩ := hd
    by_cases h : k2 = k <;> simp [lookupKey, h, ih]

lemma lookupKey_optEntry_self (k : String) (o : Option JVal) :
    lookupKey k (optEntry k o) = o := by
  cases o <;> simp [optEntry, lookupKey]

lemma lookupKey_optEntry_ne (k k2 : String) (o : Option JVal) (h : k2 ≠ k) :
    lookupKey k (optEntry k2 o) = none := by
  cases o <;> simp [optEntry, lookupKey, h]

lemma build_variable_bad (v : TemplateVariable) (h : goodMime v.mimeType = false) :
    build_variable v = .error (.valueError (mimeErrMsg v.placeholder)) := by
  cases hm : v.mimeType with
  | none => simp [build_variable, hm]
  | some m =>
    rw [hm] at h
    simp only [goodMime, decide_eq_false_iff_not, not_not] at h
    simp [build_variable, hm, h]

lemma build_variable_good (v : TemplateVariable) (h : goodMime v.mimeType = true) :
    build_variable v =
      .ok ([("placeholder", pyOptStr v.placeholder), ("name", pyOptStr v.name),
            ("mimeType", JVal.str (v.mimeType.getD ""))]
        ++ optEntry "value" v.value
        ++ optEntry "text" v.text
        ++ optEntry "usesAdvancedTemplatingEngine" v.usesAdvancedTemplatingEngine
        ++ optEntry "nestedInAdvancedTemplatingEngine" v.nestedInAdvancedTemplatingEngine
        ++ optEntry "allowRichTextInjection" v.allowRichTextInjection
        ++ optEntry "description" v.description
        ++ optEntry "defaultValue" v.defaultValue
        ++ optEntry "subvariables" v.subvariables) := by
  cases hm : v.mimeType with
  | none => rw [hm] at h; simp [goodMime] at h
  | some m =>
    rw [hm] at h
    simp only [goodMime, decide_eq_true_eq] at h
    simp [build_variable, hm, h]

lemma buildVariables_allGood (vs : List TemplateVariable)
    (h : ∀ v ∈ vs, goodMime v.mimeType = true) :
    ∃ recs, buildVariables vs = .ok recs := by
  induction vs with
  | nil => exact ⟨[], rfl⟩
  | cons v rest ih =>
    obtain ⟨recs, hrecs⟩ := ih (fun w hw => h w (List.mem_cons_of_mem v hw))
    obtain ⟨rec1, hb⟩ : ∃ rec1, build_variable v = .ok rec1 :=
      ⟨_, build_variable_good v (h v (List.mem_cons_self v rest))⟩
    exact ⟨rec1 :: recs, by simp only [buildVariables, hb, hrecs]⟩

lemma buildVariables_someBad (vs : List TemplateVariable)
    (h : ∃ v ∈ vs, goodMime v.mimeType = false) :
    ∃ v ∈ vs, goodMime v.mimeType = false ∧
      buildVariables vs = .error (.valueError (mimeErrMsg v.placeholder)) := by
  induction vs with
  | nil => obtain ⟨v, hv, _⟩ := h; exact absurd hv (List.not_mem_nil v)
  | cons v rest ih =>
    by_cases hv : goodMime v.mimeType = false
    · refine ⟨v, List.mem_cons_self v rest, hv, ?_⟩
      simp [buildVariables, build_variable_bad v hv]
    · have hv' : goodMime v.mimeType = true := by
        cases hgm : goodMime v.mimeType
        · exact absurd hgm hv
        · rfl
      obtain ⟨w, hw, hwbad⟩ : ∃ w ∈ rest, goodMime w.mimeType = false := by
        obtain ⟨u, hu, hubad⟩ := h
        rcases List.mem_cons.mp hu with rfl | hu'
        · exact absurd hubad hv
        · exact ⟨u, hu', hubad⟩
      obtain ⟨w', hw', hw'bad, hw'err⟩ := ih ⟨w, hw, hwbad⟩
      refine ⟨w', List.mem_cons_of_mem v hw', hw'bad, ?_⟩
      simp only [buildVariables, build_variable_good v hv', hw'err]

lemma buildVariables_mem (vs : List TemplateVariable)
    (recs : List (List (String × JVal))) (h : buildVariables vs = .ok recs) :
    ∀ rec0 ∈ recs, ∃ v ∈ vs, build_variable v = .ok rec0 := by
  induction vs generalizing recs with
  | nil =>
    simp only [buildVariables] at h
    cases h
    intro rec0 hrec
    exact absurd hrec (List.not_mem_nil rec0)
  | cons v rest ih =>
    simp only [buildVariables] at h
    cases hb : build_variable v with
    | error e => rw [hb] at h; cases h
    | ok rec1 =>
      rw [hb] at h
      cases hr : buildVariables rest with
      | error e => rw [hr] at h; cases h
      | ok recs' =>
        rw [hr] at h
        cases h
        intro rec0 hrec
        rcases List.mem_cons.mp hrec with rfl | hrec'
        · exact ⟨v, List.mem_cons_self v rest, hb⟩
        · obtain ⟨w, hw, hwok⟩ := ih recs' hr rec0 hrec'
          exact ⟨w, List.mem_cons_of_mem v hw, hwok⟩

lemma reportsError_iff (v : TemplateVariable) (msg : String) :
    reportsError (validate_variable v) msg ↔ msg ∈ validationErrors v := by
  unfold reportsError validate_variable
  by_cases h : (validationErrors v).isEmpty
  · simp only [h, if_true]
    simp [List.isEmpty_iff.mp h]
  · simp only [h, if_false]
    simp

lemma reportsWarning_iff (v : TemplateVariable) (msg : String) :
    reportsWarning (validate_variable v) msg ↔ msg ∈ validationWarnings v := by
  unfold reportsWarning validate_variable
  by_cases h : (validationWarnings v).isEmpty
  · simp only [h, if_true]
    simp [List.isEmpty_iff.mp h]
  · simp only [h, if_false]
    simp

lemma isValid_iff_errors_none (w : TemplateVariable) :
    ((validate_variable w).isValid = true ↔ (validate_variable w).errors = none)
    ∧ (validate_variable w).isValid = (validationErrors w).isEmpty := by
  unfold validate_variable
  by_cases h : (validationErrors w).isEmpty <;> simp [h]

end Lemmas

/-- Claim C4: `detect_file_type` is total and follows the spec's priority
order with first match winning: buffers shorter than 4 bytes are generic,
`%PDF` magic gives PDF, `PK` magic inspects the permissively decoded
first `min(len, 2000)` bytes for `ppt/` (presentation/pptx) then `word/`
(word-processing/docx) and otherwise defaults to word-processing/docx,
and everything else is the generic fallback.  Stated as equality with the
algorithm transcribed from the claim, on every byte buffer; totality is
inherent in the function being defined on all of `List Nat`. -/
theorem claim_C4_sniffer_follows_spec (b : List Nat) :
    detect_file_type b = detect_file_type_spec b := by
  unfold detect_file_type detect_file_type_spec
  split_ifs <;> try rfl
  simp only []
  split_ifs <;> rfl

/-- Claim C5 counterexample: the variable `{placeholder := "x"}` (name
absent) has exactly one of the two properties present and non-empty, yet
`validate_variable` does report the both-properties error, so the
claimed exactly-when-both-absent rule is false. -/
theorem claim_C5_counterexample :
    bothRuleHolds { placeholder := some "x", mimeType := some "text" } = false
    ∧ validate_variable { placeholder := some "x", mimeType := some "text" } =
      { isValid := false, errors := some [msgBoth], warnings := none } :=
  ⟨rfl, rfl⟩

/-- Claim C5 amended: `validate_variable` reports the both-properties
error exactly when at least one of `placeholder` and `name` is absent or
empty. -/
theorem claim_C5_amended (v : TemplateVariable) :
    reportsError (validate_variable v) msgBoth ↔
      (truthyStr v.placeholder = false ∨ truthyStr v.name = false) := by
  rw [reportsError_iff]
  have hne : msgBoth ≠ msgImage := by decide
  unfold validationErrors
  by_cases h1 : ¬ truthyStr v.placeholder = true ∨ ¬ truthyStr v.name = true <;>
    by_cases h2 : v.mimeType = some "image" ∧ isStringValue v.value = false <;>
      simp [h1, h2, hne]

/-- Claim C7: a variable with truthy placeholder and name, a list value,
and a mimeType that is neither `json` nor `image` validates as
`isValid = true` with `errors = none` (never an empty-but-present list)
and a warnings list containing the array/json message; and in general
`isValid` holds iff `errors` is `none`, being determined by the error
accumulator alone, so warnings never affect it. -/
theorem claim_C7_array_warning (v : TemplateVariable) (xs : List JVal)
    (hp : truthyStr v.placeholder = true) (hn : truthyStr v.name = true)
    (hv : v.value = some (JVal.arr xs))
    (hj : v.mimeType ≠ some "json") (hi : v.mimeType ≠ some "image") :
    (validate_variable v).isValid = true
    ∧ (validate_variable v).errors = none
    ∧ reportsWarning (validate_variable v) msgArray
    ∧ ∀ w : TemplateVariable,
        ((validate_variable w).isValid = true ↔ (validate_variable w).errors = none)
        ∧ (validate_variable w).isValid = (validationErrors w).isEmpty := by
  have herrs : validationErrors v = [] := by
    unfold validationErrors
    simp [hp, hn, hi]
  refine ⟨?_, ?_, ?_, fun w => isValid_iff_errors_none w⟩
  · unfold validate_variable
    simp [herrs]
  · unfold validate_variable
    simp [herrs]
  · rw [reportsWarning_iff]
    unfold validationWarnings
    simp [hv, hj, isListValue]

/-- Claim C7 witness: the spec's own example, an `[1, 2, 3]` value with
no mimeType, validates with `isValid = true` and the array warning. -/
theorem claim_C7_witness :
    (validate_variable { placeholder := some "items", name := some "items",
                         value := some (JVal.arr [JVal.num 1, JVal.num 2, JVal.num 3]) }
      ).isValid = true
    ∧ reportsWarning
        (validate_variable { placeholder := some "items", name := some "items",
                             value := some (JVal.arr [JVal.num 1, JVal.num 2, JVal.num 3]) })
        msgArray := by
  have h := claim_C7_array_warning
    { placeholder := some "items", name := some "items",
      value := some (JVal.arr [JVal.num 1, JVal.num 2, JVal.num 3]) }
    [JVal.num 1, JVal.num 2, JVal.num 3]
    (by decide) (by decide) rfl (by decide) (by decide)
  exact ⟨h.1, h.2.2.1⟩

/-- Claim C8: an image-mimeType variable receives the image error exactly
when its value is not a string (including an absent value), and a
non-string value makes `isValid = false`. -/
theorem claim_C8_image_value (v : TemplateVariable) (h : v.mimeType = some "image") :
    (reportsError (validate_variable v) msgImage ↔ isStringValue v.value = false)
    ∧ (isStringValue v.value = false → (validate_variable v).isValid = false) := by
  have hne : msgImage ≠ msgBoth := by decide
  have hmem : msgImage ∈ validationErrors v ↔ isStringValue v.value = false := by
    unfold validationErrors
    by_cases h1 : ¬ truthyStr v.placeholder = true ∨ ¬ truthyStr v.name = true <;>
      by_cases h2 : isStringValue v.value = false <;>
        simp [h1, h2, h, hne]
  refine ⟨(reportsError_iff v msgImage).trans hmem, fun h2 => ?_⟩
  have hmem2 : msgImage ∈ validationErrors v := hmem.mpr h2
  have hnonempty : ¬ (validationErrors v).isEmpty = true := by
    intro habs
    rw [List.isEmpty_iff.mp habs] at hmem2
    exact absurd hmem2 (List.not_mem_nil msgImage)
  unfold validate_variable
  simpa using hnonempty

/-- Claim C8 witness: the spec's example, an image variable whose value
is the number 123, is invalid. -/
theorem claim_C8_witness :
    (validate_variable { placeholder := some "logo", name := some "logo",
                         value := some (JVal.num 123), mimeType := some "image" }
      ).isValid = false :=
  (claim_C8_image_value
    { placeholder := some "logo", name := some "logo",
      value := some (JVal.num 123), mimeType := some "image" } rfl).2 rfl

/-- Claim C10: a variable with truthy placeholder and name and a present
non-empty mimeType other than `image` validates with no diagnostics at
all even when both `value` and `text` are absent, and the assembler also
accepts it (its per-variable build succeeds). -/
theorem claim_C10_lenient_no_payload (v : TemplateVariable) (m : String)
    (hp : truthyStr v.placeholder = true) (hn : truthyStr v.name = true)
    (hm : v.mimeType = some m) (hne : m ≠ "") (hni : m ≠ "image")
    (hv : v.value = none) (ht : v.text = none) :
    validate_variable v = { isValid := true, errors := none, warnings := none }
    ∧ (build_variable v).isOk = true := by
  constructor
  · have herrs : validationErrors v = [] := by
      unfold validationErrors
      simp [hp, hn, hm, hni]
    have hwarns : validationWarnings v = [] := by
      unfold validationWarnings
      simp [hv, hm, isDictOrList, isListValue, truthyStr, hne]
    unfold validate_variable
    simp [herrs, hwarns]
  · have : goodMime v.mimeType = true := by simp [goodMime, hm, hne]
    rw [build_variable_good v this]
    rfl

/-- Claim C10 witness: a text variable carrying neither `value` nor
`text` gets no diagnostic and is accepted by the assembler. -/
theorem claim_C10_witness :
    validate_variable { placeholder := some "test", name := some "test",
                        mimeType := some "text" } =
      { isValid := true, errors := none, warnings := none }
    ∧ (build_variable { placeholder := some "test", name := some "test",
                        mimeType := some "text" }).isOk = true :=
  claim_C10_lenient_no_payload
    { placeholder := some "test", name := some "test", mimeType := some "text" }
    "text" (by decide) (by decide) rfl (by decide) (by decide) rfl rfl

/-- Claim C1 counterexample: the assembler accepts a request whose one
variable has neither `placeholder` nor `name` (only a mimeType), and the
emitted record carries `placeholder = null` and `name = null` — so not
every accepted request yields records with non-empty placeholder and
name. -/
theorem claim_C1_counterexample :
    emittedVarsWellFormed
      { templateId := "t", variablesList := [{ mimeType := some "text" }] } = false
    ∧ generate_body
        { templateId := "t", variablesList := [{ mimeType := some "text" }] } =
      .ok [("templateId", JVal.str "t"),
           ("variables", JVal.arr [JVal.obj
             [("placeholder", JVal.null), ("name", JVal.null),
              ("mimeType", JVal.str "text")]])] :=
  ⟨rfl, rfl⟩

/-- Claim C1 amended: every variable record placed in an accepted body's
`variables` list has `placeholder` and `name` keys present (copied from
the input unvalidated, possibly null or empty) and an explicit non-empty
`mimeType`. -/
theorem claim_C1_amended (r : GenerateRequest) (body : List (String × JVal))
    (h : generate_body r = .ok body) :
    ∀ j ∈ bodyVariables body, mimeOkRecord j = true := by
  intro j hj
  unfold generate_body at h
  cases hbv : buildVariables r.variablesList with
  | error e => rw [hbv] at h; cases h
  | ok recs =>
    rw [hbv] at h
    injection h with h
    subst h
    have hvars : bodyVariables
        ([("templateId", JVal.str r.templateId),
          ("variables", JVal.arr (recs.map JVal.obj))]
          ++ optEntry "name" r.name
          ++ optEntry "description" r.description
          ++ optEntry "replaceFonts" r.replaceFonts
          ++ optEntry "defaultFont" r.defaultFont
          ++ optEntry "metadata" r.metadata) = recs.map JVal.obj := by
      unfold bodyVariables
      simp [lookupKey_append, lookupKey]
    rw [hvars] at hj
    obtain ⟨rec0, hrec0, rfl⟩ := List.mem_map.mp hj
    obtain ⟨v, _, hvok⟩ := buildVariables_mem _ _ hbv rec0 hrec0
    have hgood : goodMime v.mimeType = true := by
      cases hm : v.mimeType with
      | none => rw [build_variable_bad v (by simp [goodMime, hm])] at hvok; cases hvok
      | some m =>
        by_cases hne : m = ""
        · rw [build_variable_bad v (by simp [goodMime, hm, hne])] at hvok; cases hvok
        · simp [goodMime, hm, hne]
    rw [build_variable_good v hgood] at hvok
    injection hvok with hvok
    subst hvok
    cases hm : v.mimeType with
    | none => rw [hm] at hgood; simp [goodMime] at hgood
    | some m =>
      rw [hm] at hgood
      simp only [goodMime, decide_eq_true_eq] at hgood
      unfold mimeOkRecord hasKey
      simp [hm, lookupKey_append, lookupKey, lookupKey_optEntry_self,
        lookupKey_optEntry_ne, hgood]

/-- Claim C1 witness for the amended theorem: the record emitted for a
mimeType-only variable satisfies the amended shape. -/
theorem claim_C1_witness :
    mimeOkRecord (JVal.obj
      [("placeholder", JVal.null), ("name", JVal.null),
       ("mimeType", JVal.str "text")]) = true :=
  claim_C1_amended
    { templateId := "t", variablesList := [{ mimeType := some "text" }] }
    [("templateId", JVal.str "t"),
     ("variables", JVal.arr [JVal.obj
       [("placeholder", JVal.null), ("name", JVal.null),
        ("mimeType", JVal.str "text")]])]
    rfl
    (JVal.obj [("placeholder", JVal.null), ("name", JVal.null),
               ("mimeType", JVal.str "text")])
    (by simp [bodyVariables, lookupKey])

/-- Claim C2 counterexample: a variable supplying both `value` and
`text` has both fields emitted — `text` is not suppressed, so the
claimed value-wins precedence is false. -/
theorem claim_C2_counterexample :
    valueTextPrecedence
      { placeholder := some "p", name := some "n", mimeType := some "text",
        value := some (JVal.str "a"), text := some (JVal.str "b") } = false
    ∧ build_variable
        { placeholder := some "p", name := some "n", mimeType := some "text",
          value := some (JVal.str "a"), text := some (JVal.str "b") } =
      .ok [("placeholder", JVal.str "p"), ("name", JVal.str "n"),
           ("mimeType", JVal.str "text"), ("value", JVal.str "a"),
           ("text", JVal.str "b")] :=
  ⟨rfl, rfl⟩

/-- Claim C2 amended: the emitted wire record contains the `value` field
exactly when the input supplied a `value` key (including an explicit
null) and, independently, contains the `text` field exactly when the
input supplied a `text` key; each is copied verbatim, and when both are
supplied both are emitted. -/
theorem claim_C2_amended (v : TemplateVariable) (rec0 : List (String × JVal))
    (h : build_variable v = .ok rec0) :
    lookupKey "value" rec0 = v.value ∧ lookupKey "text" rec0 = v.text := by
  have hgood : goodMime v.mimeType = true := by
    cases hm : v.mimeType with
    | none => rw [build_variable_bad v (by simp [goodMime, hm])] at h; cases h
    | some m =>
      by_cases hne : m = ""
      · rw [build_variable_bad v (by simp [goodMime, hm, hne])] at h; cases h
      · simp [goodMime, hm, hne]
  rw [build_variable_good v hgood] at h
  injection h with h
  subst h
  constructor <;>
    · simp only [lookupKey_append, lookupKey, lookupKey_optEntry_self,
        lookupKey_optEntry_ne, String.reduceEq, reduceIte]
      cases v.value <;> cases v.text <;>
        simp [lookupKey_append, lookupKey_optEntry_self, lookupKey_optEntry_ne]

/-- Claim C2 witness for the amended theorem: a variable with an
explicit null `value` and no `text` emits `value = null` and no
`text`. -/
theorem claim_C2_witness :
    lookupKey "value"
      [("placeholder", JVal.str "p"), ("name", JVal.str "n"),
       ("mimeType", JVal.str "text"), ("value", JVal.null)] = some JVal.null
    ∧ lookupKey "text"
        [("placeholder", JVal.str "p"), ("name", JVal.str "n"),
         ("mimeType", JVal.str "text"), ("value", JVal.null)] = none :=
  claim_C2_amended
    { placeholder := some "p", name := some "n", mimeType := some "text",
      value := some JVal.null }
    [("placeholder", JVal.str "p"), ("name", JVal.str "n"),
     ("mimeType", JVal.str "text"), ("value", JVal.null)]
    rfl

/-- Claim C3 counterexample: a variable lacking `mimeType` does make the
assembler fail before any request is emitted and the message names the
placeholder, but the exception is Python's builtin `ValueError`, not the
SDK's `ValidationError` class. -/
theorem claim_C3_counterexample :
    generate_body { templateId := "t", variablesList := [{ placeholder := some "x" }] } =
      .error (.valueError "Variable \"x\" must have a \"mimeType\" property")
    ∧ failsWithValidationError
        { templateId := "t", variablesList := [{ placeholder := some "x" }] } = false :=
  ⟨rfl, rfl⟩

/-- Claim C3 amended: if some variable's `mimeType` key is absent or
empty, the assembler fails with a `ValueError` whose message names that
variable's placeholder, during request assembly with no body produced
(so before any network call); and assembly fails for no other reason —
when every variable has a present non-empty `mimeType` it succeeds. -/
theorem claim_C3_amended (r : GenerateRequest) :
    ((∃ v ∈ r.variablesList, goodMime v.mimeType = false) →
      ∃ v ∈ r.variablesList, goodMime v.mimeType = false ∧
        generate_body r = .error (.valueError (mimeErrMsg v.placeholder)))
    ∧ ((∀ v ∈ r.variablesList, goodMime v.mimeType = true) →
        (generate_body r).isOk = true) := by
  constructor
  · intro h
    obtain ⟨v, hv, hbad, herr⟩ := buildVariables_someBad _ h
    exact ⟨v, hv, hbad, by simp [generate_body, herr]⟩
  · intro h
    obtain ⟨recs, hrecs⟩ := buildVariables_allGood _ h
    simp [generate_body, hrecs, Except.isOk, Except.toBool]

/-- Claim C3 witness for the amended theorem: a request whose variables
all carry a non-empty mimeType assembles successfully. -/
theorem claim_C3_witness :
    (generate_body
      { templateId := "t",
        variablesList := [{ placeholder := some "p", name := some "p",
                            mimeType := some "text" }] }).isOk = true := by
  refine (claim_C3_amended
    { templateId := "t",
      variablesList := [{ placeholder := some "p", name := some "p",
                          mimeType := some "text" }] }).2 ?_
  intro v hv
  simp only [List.mem_singleton] at hv
  subst hv
  rfl

/-- Claim C6: for non-empty placeholder and name, any value, and a
mimeType among text/html, `create_simple_variable` succeeds with exactly
the four-field record, and the assembler's per-variable build emits a
wire record whose placeholder, name, mimeType and value equal the
constructor inputs exactly. -/
theorem claim_C6_roundtrip (ph nm : String) (val : JVal) (mt : String)
    (hp : ph ≠ "") (hn : nm ≠ "") (hm : mt = "text" ∨ mt = "html") :
    create_simple_variable ph nm val mt =
      .ok { placeholder := some ph, name := some nm,
            value := some val, mimeType := some mt }
    ∧ build_variable
        { placeholder := some ph, name := some nm,
          value := some val, mimeType := some mt } =
      .ok [("placeholder", JVal.str ph), ("name", JVal.str nm),
           ("mimeType", JVal.str mt), ("value", val)] := by
  rcases hm with rfl | rfl <;>
    exact ⟨by simp [create_simple_variable, hp, hn],
           by simp [build_variable, optEntry, pyOptStr]⟩

/-- Claim C6 witness: a concrete text variable round-trips exactly. -/
theorem claim_C6_witness :
    create_simple_variable "customer" "customer" (JVal.str "A") "text" =
      .ok { placeholder := some "customer", name := some "customer",
            value := some (JVal.str "A"), mimeType := some "text" }
    ∧ build_variable
        { placeholder := some "customer", name := some "customer",
          value := some (JVal.str "A"), mimeType := some "text" } =
      .ok [("placeholder", JVal.str "customer"), ("name", JVal.str "customer"),
           ("mimeType", JVal.str "text"), ("value", JVal.str "A")] :=
  claim_C6_roundtrip "customer" "customer" (JVal.str "A") "text"
    (by decide) (by decide) (Or.inl rfl)

/-- Claim C9: an accepted body never contains an `outputFormat` key even
when the request supplies one; `name`, `description`, `replaceFonts`,
`defaultFont` and `metadata` appear in the body exactly when (and as)
the request supplied them; and `templateId` and `variables` are always
present. -/
theorem claim_C9_envelope (r : GenerateRequest) (body : List (String × JVal))
    (h : generate_body r = .ok body) :
    hasKey "outputFormat" body = false
    ∧ lookupKey "name" body = r.name
    ∧ lookupKey "description" body = r.description
    ∧ lookupKey "replaceFonts" body = r.replaceFonts
    ∧ lookupKey "defaultFont" body = r.defaultFont
    ∧ lookupKey "metadata" body = r.metadata
    ∧ hasKey "templateId" body = true
    ∧ hasKey "variables" body = true := by
  unfold generate_body at h
  cases hbv : buildVariables r.variablesList with
  | error e => rw [hbv] at h; cases h
  | ok recs =>
    rw [hbv] at h
    injection h with h
    subst h
    refine ⟨?_, ?_, ?_, ?_, ?_, ?_, ?_, ?_⟩ <;>
      · simp only [hasKey, lookupKey_append, lookupKey, lookupKey_optEntry_self,
          lookupKey_optEntry_ne, String.reduceEq, reduceIte]
        cases r.name <;> cases r.description <;> cases r.replaceFonts <;>
          cases r.defaultFont <;> cases r.metadata <;>
            simp [lookupKey_optEntry_self, lookupKey_optEntry_ne, optEntry,
              lookupKey]

/-- Claim C9 witness: a request supplying `outputFormat` and `name`
assembles to a body that keeps `name` and drops `outputFormat`. -/
theorem claim_C9_witness :
    hasKey "outputFormat"
      [("templateId", JVal.str "t"), ("variables", JVal.arr []),
       ("name", JVal.str "Doc")] = false
    ∧ lookupKey "name"
        [("templateId", JVal.str "t"), ("variables", JVal.arr []),
         ("name", JVal.str "Doc")] = some (JVal.str "Doc") := by
  have h := claim_C9_envelope
    { templateId := "t", variablesList := [], name := some (JVal.str "Doc"),
      outputFormat := some (JVal.str "pdf") }
    [("templateId", JVal.str "t"), ("variables", JVal.arr []),
     ("name", JVal.str "Doc")]
    rfl
  exact ⟨h.1, h.2.1⟩

end TurboDocx
